import Mathlib

/-!
# Verification of the luna-rs core pipeline

Shallow embedding of the luna-rs sources (`src/core/des.rs`,
`src/core/tns_writer.rs`, `src/core/converter.rs`, `src/core/xml.rs`,
`src/core/compression.rs`) over byte lists (`List Nat`, each element a byte
value), together with proofs of the specified properties.

Byte buffers are `List Nat`; machine-integer casts (`as u16`, `as u32`) are
explicit `% 2^16` / `% 2^32`.  The external 3DES block-cipher primitive (the
`des` crate) is an explicit function parameter `tdes : key → block → block`;
every theorem about `encrypt_document` is proved for an arbitrary such
primitive, hence in particular for the real 3DES-EDE3.  The external raw
deflate primitive (the `flate2` crate) is likewise a parameter where only its
placement matters, and is modelled from the spec where its behaviour matters.
In-place mutation of the data buffer becomes explicit state passing: a Rust
function `fn f(data: &mut [u8]) -> Result<(), E>` becomes
`f : List Nat → Except E Unit × List Nat` returning the result and the final
buffer contents.  File writes return the byte stream that would be written.
-/

set_option maxRecDepth 10000

namespace Luna

/-! ## `src/core/des.rs` -/

/-- First hardcoded 3DES key `KEY1` from des.rs. -/
def KEY1 : List Nat := [0x16, 0xA7, 0xA7, 0x32, 0x68, 0xA7, 0xBA, 0x73]

/-- Second hardcoded 3DES key `KEY2` from des.rs. -/
def KEY2 : List Nat := [0xD9, 0xA8, 0x86, 0xA4, 0x34, 0x45, 0x94, 0x10]

/-- Third hardcoded 3DES key `KEY3` from des.rs. -/
def KEY3 : List Nat := [0x3D, 0x80, 0x8C, 0xB5, 0xDF, 0xB3, 0x80, 0x6B]

/-- Base IV value `IVEC_BASE` for the custom counter scheme (des.rs). -/
def IVEC_BASE : Nat := 0x6fe21307

/-- `COUNTER_WRAP` from des.rs: the counter wraps at this value. -/
def COUNTER_WRAP : Nat := 1024

/-- `BLOCK_SIZE` from des.rs: DES block size in bytes. -/
def BLOCK_SIZE : Nat := 8

/-- The error type `DESError` from des.rs. -/
inductive DESError where
  | InvalidLength (n : Nat)
  | EncryptionFailed (s : String)
deriving DecidableEq

/-- The 24-byte 3DES-EDE3 key assembled in `encrypt_document`
(`key_24[0..8] = KEY1; key_24[8..16] = KEY2; key_24[16..24] = KEY3`). -/
def key_24 : List Nat := KEY1 ++ KEY2 ++ KEY3

/-- The IV block built in `encrypt_document`: first 4 bytes zero, bytes 4..8
the little-endian bytes of `v` (`iv_block[4+k] = (v >> 8*k) as u8`). -/
def iv_block (v : Nat) : List Nat :=
  [0, 0, 0, 0, v % 256, v / 256 % 256, v / 65536 % 256, v / 16777216 % 256]

/-- The in-place XOR loop of `encrypt_document`:
`chunk[i] ^= mask[i]` for every `i < chunk.len()` with `i < mask.len()`
(positions of `chunk` beyond `mask` are left unchanged). -/
def xor_block (chunk mask : List Nat) : List Nat :=
  List.zipWith (fun a b => a ^^^ b) chunk mask ++ chunk.drop mask.length

/-- The counter update of `encrypt_document`: increment, and reset to 0 when
the counter reaches `COUNTER_WRAP`. -/
def next_ctr (c : Nat) : Nat :=
  if c + 1 = COUNTER_WRAP then 0 else c + 1

/-- The per-chunk loop of `encrypt_document`, processing `data` in 8-byte
chunks: for each chunk, compute `current_ivec = IVEC_BASE.wrapping_add ctr`,
encrypt `iv_block current_ivec` with the 3DES primitive `tdes` under `key_24`,
XOR the result into the chunk, and continue with the updated counter. -/
def encrypt_blocks (tdes : List Nat → List Nat → List Nat) (ctr : Nat)
    (data : List Nat) : List Nat :=
  if h : data = [] then []
  else
    xor_block (data.take BLOCK_SIZE)
        (tdes key_24 (iv_block ((IVEC_BASE + ctr) % 2 ^ 32)))
      ++ encrypt_blocks tdes (next_ctr ctr) (data.drop BLOCK_SIZE)
termination_by data.length
decreasing_by
  simp only [List.length_drop]
  have : data.length ≠ 0 := fun hn => h (List.eq_nil_of_length_eq_zero hn)
  simp only [BLOCK_SIZE]
  omega

/-- `encrypt_document` from des.rs, with the external 3DES-EDE3 primitive as
the parameter `tdes` (in the source, `tdes key_24` is
`TdesEde3::new(&key_24).encrypt_block`).  Returns the `Result` together with
the final contents of the mutable buffer. -/
def encrypt_document (tdes : List Nat → List Nat → List Nat)
    (data : List Nat) : Except DESError Unit × List Nat :=
  if data.length % BLOCK_SIZE ≠ 0 then
    (Except.error (DESError.InvalidLength data.length), data)
  else
    (Except.ok (), encrypt_blocks tdes 0 data)

/-- The counter block used for block index `i` (counted from 0): first 4 bytes
zero, last 4 bytes the little-endian encoding of
`(IVEC_BASE + i % 1024) % 2^32`. -/
def counter_block (i : Nat) : List Nat :=
  iv_block ((IVEC_BASE + i % COUNTER_WRAP) % 2 ^ 32)

theorem xor_block_length (chunk mask : List Nat) :
    (xor_block chunk mask).length = chunk.length := by
  simp only [xor_block, List.length_append, List.length_zipWith, List.length_drop]
  omega

theorem encrypt_blocks_nil (tdes : List Nat → List Nat → List Nat) (ctr : Nat) :
    encrypt_blocks tdes ctr [] = [] := by
  rw [encrypt_blocks]
  simp

theorem encrypt_blocks_ne_nil (tdes : List Nat → List Nat → List Nat)
    (ctr : Nat) (data : List Nat) (h : data ≠ []) :
    encrypt_blocks tdes ctr data =
      xor_block (data.take BLOCK_SIZE)
          (tdes key_24 (iv_block ((IVEC_BASE + ctr) % 2 ^ 32)))
        ++ encrypt_blocks tdes (next_ctr ctr) (data.drop BLOCK_SIZE) := by
  rw [encrypt_blocks]
  simp [h]

theorem encrypt_blocks_length (tdes : List Nat → List Nat → List Nat) :
    ∀ n (data : List Nat), data.length ≤ n → ∀ ctr,
      (encrypt_blocks tdes ctr data).length = data.length := by
  intro n
  induction n with
  | zero =>
    intro data h ctr
    have hd : data = [] := by
      cases data with
      | nil => rfl
      | cons a l => simp at h
    subst hd
    simp [encrypt_blocks_nil]
  | succ n ih =>
    intro data h ctr
    by_cases hd : data = []
    · subst hd; simp [encrypt_blocks_nil]
    · rw [encrypt_blocks_ne_nil tdes ctr data hd]
      have hlen : data.length ≠ 0 := fun hn => hd (List.eq_nil_of_length_eq_zero hn)
      have hrec := ih (data.drop BLOCK_SIZE)
        (by simp only [List.length_drop, BLOCK_SIZE]; omega) (next_ctr ctr)
      simp only [List.length_append, xor_block_length, List.length_take,
        List.length_drop, BLOCK_SIZE] at hrec ⊢
      omega

theorem take_append_len {α : Type} (A B : List α) (n : Nat) (h : A.length = n) :
    (A ++ B).take n = A := by
  subst h; exact List.take_left A B

theorem drop_append_len {α : Type} (A B : List α) (n : Nat) (h : A.length = n) :
    (A ++ B).drop n = B := by
  subst h; exact List.drop_left A B

theorem encrypt_blocks_drop_eight (tdes : List Nat → List Nat → List Nat)
    (y : List Nat) (h8 : y.length % 8 = 0) (c : Nat) :
    (encrypt_blocks tdes c y).drop 8 = encrypt_blocks tdes (next_ctr c) (y.drop 8) := by
  by_cases hy : y = []
  · subst hy; simp [encrypt_blocks_nil]
  · rw [encrypt_blocks_ne_nil tdes c y hy]
    have hlen : y.length ≠ 0 := fun hn => hy (List.eq_nil_of_length_eq_zero hn)
    have hxl : (xor_block (y.take BLOCK_SIZE)
        (tdes key_24 (iv_block ((IVEC_BASE + c) % 2 ^ 32)))).length = 8 := by
      rw [xor_block_length]
      simp only [List.length_take, BLOCK_SIZE]
      omega
    rw [drop_append_len _ _ _ hxl]
    rfl

theorem encrypt_blocks_drop_blocks (tdes : List Nat → List Nat → List Nat) :
    ∀ (i : Nat) (data : List Nat), data.length % 8 = 0 → ∀ ctr, ctr < 1024 →
      (encrypt_blocks tdes ctr data).drop (8 * i)
        = encrypt_blocks tdes ((ctr + i) % 1024) (data.drop (8 * i)) := by
  intro i
  induction i with
  | zero =>
    intro data h8 ctr hc
    simp [Nat.mod_eq_of_lt hc]
  | succ i ih =>
    intro data h8 ctr hc
    have hdrop : (data.drop (8 * i)).length % 8 = 0 := by
      simp only [List.length_drop]
      omega
    calc (encrypt_blocks tdes ctr data).drop (8 * (i + 1))
        = ((encrypt_blocks tdes ctr data).drop (8 * i)).drop 8 := by
          rw [List.drop_drop]
          congr 1
      _ = (encrypt_blocks tdes ((ctr + i) % 1024) (data.drop (8 * i))).drop 8 := by
          rw [ih data h8 ctr hc]
      _ = encrypt_blocks tdes (next_ctr ((ctr + i) % 1024)) ((data.drop (8 * i)).drop 8) :=
          encrypt_blocks_drop_eight tdes _ hdrop _
      _ = encrypt_blocks tdes ((ctr + (i + 1)) % 1024) (data.drop (8 * (i + 1))) := by
          rw [List.drop_drop]
          congr 1
          · simp only [next_ctr, COUNTER_WRAP]
            split <;> omega

theorem encrypt_document_block (tdes : List Nat → List Nat → List Nat)
    (data : List Nat) (h8 : data.length % 8 = 0) (i : Nat) (hi : 8 * i < data.length) :
    ((encrypt_document tdes data).2.drop (8 * i)).take 8
      = xor_block ((data.drop (8 * i)).take 8) (tdes key_24 (counter_block i)) := by
  have h0 : ¬data.length % BLOCK_SIZE ≠ 0 := by simp [BLOCK_SIZE, h8]
  simp only [encrypt_document, if_neg h0]
  rw [encrypt_blocks_drop_blocks tdes i data h8 0 (by norm_num)]
  have hy : data.drop (8 * i) ≠ [] := by
    intro h
    have := congrArg List.length h
    simp only [List.length_drop, List.length_nil] at this
    omega
  rw [encrypt_blocks_ne_nil tdes _ _ hy]
  have hylen : 8 ≤ (data.drop (8 * i)).length := by
    simp only [List.length_drop]
    omega
  have hxl : (xor_block ((data.drop (8 * i)).take BLOCK_SIZE)
      (tdes key_24 (iv_block ((IVEC_BASE + (0 + i) % 1024) % 2 ^ 32)))).length = 8 := by
    rw [xor_block_length]
    simp only [List.length_take, BLOCK_SIZE]
    omega
  rw [take_append_len _ _ _ hxl]
  simp only [BLOCK_SIZE, counter_block, COUNTER_WRAP, Nat.zero_add]

/-- **C1**: for every buffer whose length is a multiple of 8, and for every
3DES single-block primitive `tdes`, `encrypt_document` XORs the i-th 8-byte
block with the mask `tdes key_24 (counter_block i)` — the single-block
encryption, under the compiled-in 24-byte key `KEY1 ++ KEY2 ++ KEY3`, of the
counter block whose first 4 bytes are zero and whose last 4 bytes are the
little-endian encoding of `(IVEC_BASE + i % 1024) % 2^32`; consequently
`counter_block (i + 1024) = counter_block i` (block `i + 1024` gets the same
mask as block `i`), and a 1025-block buffer encrypts without error with the
1025th block's mask equal to the 1st block's mask. -/
theorem encrypt_document_keystream (tdes : List Nat → List Nat → List Nat)
    (data : List Nat) (h8 : data.length % 8 = 0) :
    (∀ i, 8 * i < data.length →
      ((encrypt_document tdes data).2.drop (8 * i)).take 8
        = xor_block ((data.drop (8 * i)).take 8) (tdes key_24 (counter_block i)))
    ∧ (∀ i, counter_block (i + 1024) = counter_block i)
    ∧ (data.length = 8 * 1025 →
        (encrypt_document tdes data).1 = Except.ok ()
        ∧ tdes key_24 (counter_block 1024) = tdes key_24 (counter_block 0)) := by
  have hper : ∀ i, counter_block (i + 1024) = counter_block i := by
    intro i
    simp only [counter_block, COUNTER_WRAP]
    congr 1
    omega
  refine ⟨fun i hi => encrypt_document_block tdes data h8 i hi, hper, fun _ => ⟨?_, ?_⟩⟩
  · simp [encrypt_document, BLOCK_SIZE, h8]
  · exact congrArg (tdes key_24) (hper 0)

theorem encrypt_document_keystream_witness :
    ((encrypt_document (fun _ b => b) (List.replicate 16 0)).2.drop (8 * 1)).take 8
      = xor_block (((List.replicate 16 0).drop (8 * 1)).take 8)
          ((fun _ b => b : List Nat → List Nat → List Nat) key_24 (counter_block 1)) :=
  (encrypt_document_keystream (fun _ b => b) (List.replicate 16 0) (by decide)).1 1 (by decide)

/-- **C2**: `encrypt_document` returns an error if and only if the buffer
length is not a multiple of 8; in that case the error is
`DESError.InvalidLength` (the spec's `InvalidBlockLength`) and the buffer is
returned completely unmodified; on an empty buffer it succeeds and the buffer
stays empty. -/
theorem encrypt_document_error_iff (tdes : List Nat → List Nat → List Nat)
    (data : List Nat) :
    (data.length % 8 = 0 → (encrypt_document tdes data).1 = Except.ok ())
    ∧ (data.length % 8 ≠ 0 →
        encrypt_document tdes data
          = (Except.error (DESError.InvalidLength data.length), data))
    ∧ encrypt_document tdes [] = (Except.ok (), []) := by
  refine ⟨fun h => ?_, fun h => ?_, ?_⟩
  · simp [encrypt_document, BLOCK_SIZE, h]
  · simp [encrypt_document, BLOCK_SIZE, h]
  · simp [encrypt_document, BLOCK_SIZE, encrypt_blocks_nil]

theorem encrypt_document_error_iff_witness :
    encrypt_document (fun _ b => b) [0, 0, 0]
      = (Except.error (DESError.InvalidLength 3), [0, 0, 0]) :=
  (encrypt_document_error_iff (fun _ b => b) [0, 0, 0]).2.1 (by decide)

/-- **C3**: `encrypt_document` is deterministic — identical input buffers give
identical results — and for every 3DES primitive `tdes`, encrypting a single
all-zero 8-byte block and a single all-0xFF 8-byte block produces two
different ciphertext blocks. -/
theorem encrypt_document_deterministic (tdes : List Nat → List Nat → List Nat)
    (d1 d2 : List Nat) (h : d1 = d2) :
    encrypt_document tdes d1 = encrypt_document tdes d2
    ∧ (encrypt_document tdes [0, 0, 0, 0, 0, 0, 0, 0]).2
        ≠ (encrypt_document tdes [255, 255, 255, 255, 255, 255, 255, 255]).2 := by
  refine ⟨by rw [h], ?_⟩
  have hz : ([0, 0, 0, 0, 0, 0, 0, 0] : List Nat) ≠ [] := by simp
  have hf : ([255, 255, 255, 255, 255, 255, 255, 255] : List Nat) ≠ [] := by simp
  simp only [encrypt_document, BLOCK_SIZE, List.length_cons, List.length_nil]
  norm_num
  rw [encrypt_blocks_ne_nil tdes 0 _ hz, encrypt_blocks_ne_nil tdes 0 _ hf]
  simp only [BLOCK_SIZE, List.take, List.drop, encrypt_blocks_nil, List.append_nil]
  generalize tdes key_24 (iv_block ((IVEC_BASE + 0) % 2 ^ 32)) = m
  cases m with
  | nil =>
    simp [xor_block]
  | cons a t =>
    simp only [xor_block, List.zipWith, List.cons_append, ne_eq, List.cons.injEq,
      not_and, Nat.zero_xor]
    intro hhead
    exfalso
    have h255 : (255 : Nat) = 0 := by
      calc (255 : Nat) = 255 ^^^ (a ^^^ a) := by rw [Nat.xor_self, Nat.xor_zero]
        _ = 255 ^^^ a ^^^ a := by rw [Nat.xor_assoc]
        _ = a ^^^ a := by rw [← hhead]
        _ = 0 := Nat.xor_self a
    norm_num at h255

theorem encrypt_document_deterministic_witness :
    encrypt_document (fun _ b => b) [1, 2, 3] = encrypt_document (fun _ b => b) [1, 2, 3] :=
  (encrypt_document_deterministic (fun _ b => b) [1, 2, 3] [1, 2, 3] rfl).1

/-- **C10**: on every buffer whose length is a multiple of 8,
`encrypt_document` succeeds and the resulting buffer has exactly the same
length as the input: the cipher only replaces byte values in place. -/
theorem encrypt_document_preserves_length (tdes : List Nat → List Nat → List Nat)
    (data : List Nat) (h8 : data.length % 8 = 0) :
    (encrypt_document tdes data).1 = Except.ok ()
    ∧ (encrypt_document tdes data).2.length = data.length := by
  constructor
  · simp [encrypt_document, BLOCK_SIZE, h8]
  · have h0 : ¬data.length % BLOCK_SIZE ≠ 0 := by simp [BLOCK_SIZE, h8]
    simp only [encrypt_document, if_neg h0]
    exact encrypt_blocks_length tdes data.length data le_rfl 0

theorem encrypt_document_preserves_length_witness :
    (encrypt_document (fun _ b => b) (List.replicate 8 1)).1 = Except.ok ()
    ∧ (encrypt_document (fun _ b => b) (List.replicate 8 1)).2.length
        = (List.replicate 8 1 : List Nat).length :=
  encrypt_document_preserves_length (fun _ b => b) (List.replicate 8 1) (by decide)

/-! ## `pad_to_8_bytes` from `src/core/converter.rs` -/

/-- `pad_to_8_bytes` from converter.rs: append `8 - len % 8` zero bytes when
the length is not a multiple of 8, otherwise return the buffer unchanged. -/
def pad_to_8_bytes (data : List Nat) : List Nat :=
  if data.length % 8 ≠ 0 then data ++ List.replicate (8 - data.length % 8) 0
  else data

/-- **C7**: `pad_to_8_bytes` returns the input followed by between 0 and 7
zero bytes, the result length is the smallest multiple of 8 that is at least
the input length (nothing is appended when the length is already a multiple
of 8), and consequently `encrypt_document` applied to the padded buffer never
returns the `InvalidLength` error. -/
theorem pad_to_8_bytes_spec (data : List Nat) (tdes : List Nat → List Nat → List Nat) :
    pad_to_8_bytes data = data ++ List.replicate ((8 - data.length % 8) % 8) 0
    ∧ (8 - data.length % 8) % 8 ≤ 7
    ∧ (pad_to_8_bytes data).length % 8 = 0
    ∧ data.length ≤ (pad_to_8_bytes data).length
    ∧ (pad_to_8_bytes data).length < data.length + 8
    ∧ (data.length % 8 = 0 → pad_to_8_bytes data = data)
    ∧ (encrypt_document tdes (pad_to_8_bytes data)).1 = Except.ok () := by
  have hlen : (pad_to_8_bytes data).length % 8 = 0 := by
    by_cases h : data.length % 8 ≠ 0
    · simp only [pad_to_8_bytes, if_pos h, List.length_append, List.length_replicate]
      omega
    · simp only [pad_to_8_bytes, if_neg h]
      omega
  refine ⟨?_, by omega, hlen, ?_, ?_, fun h => ?_, ?_⟩
  · by_cases h : data.length % 8 ≠ 0
    · simp only [pad_to_8_bytes, if_pos h]
      congr 2
      omega
    · simp only [pad_to_8_bytes, if_neg h]
      have h0 : data.length % 8 = 0 := by omega
      simp [h0]
  · by_cases h : data.length % 8 ≠ 0
    · simp only [pad_to_8_bytes, if_pos h, List.length_append]
      omega
    · simp [pad_to_8_bytes, if_neg h]
  · by_cases h : data.length % 8 ≠ 0
    · simp only [pad_to_8_bytes, if_pos h, List.length_append, List.length_replicate]
      omega
    · simp only [pad_to_8_bytes, if_neg h]
      omega
  · simp [pad_to_8_bytes, h]
  · simp [encrypt_document, BLOCK_SIZE, hlen]

theorem pad_to_8_bytes_spec_witness :
    (pad_to_8_bytes [1, 2, 3]).length % 8 = 0 :=
  (pad_to_8_bytes_spec [1, 2, 3] (fun _ b => b)).2.2.1

/-! ## `src/core/tns_writer.rs` -/

/-- Little-endian encoding of a `u16` field: `(x as u16).to_le_bytes()`. -/
def le16 (n : Nat) : List Nat := [n % 256, n / 256 % 256]

/-- Little-endian encoding of a `u32` field: `(x as u32).to_le_bytes()`. -/
def le32 (n : Nat) : List Nat :=
  [n % 256, n / 256 % 256, n / 65536 % 256, n / 16777216 % 256]

/-- `TI_HEADER_MAGIC` from tns_writer.rs: the bytes of `"*TIMLP"`. -/
def TI_HEADER_MAGIC : List Nat := [0x2A, 0x54, 0x49, 0x4D, 0x4C, 0x50]

/-- `TI_VERSION_DEFAULT` from tns_writer.rs: the bytes of `"0500"`. -/
def TI_VERSION_DEFAULT : List Nat := [0x30, 0x35, 0x30, 0x30]

/-- `TI_VERSION_BITMAP` from tns_writer.rs: the bytes of `"0700"`. -/
def TI_VERSION_BITMAP : List Nat := [0x30, 0x37, 0x30, 0x30]

/-- `STD_LOCAL_HEADER_SIG` from tns_writer.rs: `PK\x03\x04`. -/
def STD_LOCAL_HEADER_SIG : List Nat := [0x50, 0x4B, 0x03, 0x04]

/-- `CENTRAL_DIR_SIG` from tns_writer.rs: `PK\x01\x02`. -/
def CENTRAL_DIR_SIG : List Nat := [0x50, 0x4B, 0x01, 0x02]

/-- `TI_END_SIG` from tns_writer.rs: the bytes of `"TIPD"`. -/
def TI_END_SIG : List Nat := [0x54, 0x49, 0x50, 0x44]

/-- `TI_ENCRYPTED_METHOD` from tns_writer.rs. -/
def TI_ENCRYPTED_METHOD : Nat := 0x0D

/-- `DEFLATE_METHOD` from tns_writer.rs. -/
def DEFLATE_METHOD : Nat := 0x08

/-- `VERSION_NEEDED` from tns_writer.rs. -/
def VERSION_NEEDED : Nat := 20

/-- `VERSION_MADE_BY` from tns_writer.rs. -/
def VERSION_MADE_BY : Nat := 20

/-- `TnsFileEntry` from tns_writer.rs (filenames as byte lists;
`String::len` in Rust is the byte length). -/
structure TnsFileEntry where
  filename : List Nat
  data : List Nat
  method : Nat
  uncompressed_size : Option Nat
  crc32 : Option Nat

/-- `TnsFileEntry::new_ti_encrypted` from tns_writer.rs. -/
def new_ti_encrypted (filename data : List Nat) : TnsFileEntry :=
  ⟨filename, data, TI_ENCRYPTED_METHOD, none, none⟩

/-- `TnsFileEntry::new_deflated` from tns_writer.rs. -/
def new_deflated (filename compressed_data : List Nat)
    (original_size crc : Nat) : TnsFileEntry :=
  ⟨filename, compressed_data, DEFLATE_METHOD, some original_size, some crc⟩

/-- `WrittenEntry` from tns_writer.rs (the writer-internal ledger). -/
structure WrittenEntry where
  filename : List Nat
  method : Nat
  crc32 : Nat
  compressed_size : Nat
  uncompressed_size : Nat
  local_header_offset : Nat

/-- One step of the CRC-32 bit loop (reflected polynomial `0xEDB88320`),
as computed by `crc32fast::hash`. -/
def crc32_bit_step (c : Nat) : Nat :=
  if c % 2 = 1 then c / 2 ^^^ 0xEDB88320 else c / 2

/-- CRC-32 update by one byte. -/
def crc32_byte_step (c b : Nat) : Nat :=
  (List.range 8).foldl (fun acc _ => crc32_bit_step acc) (c ^^^ b % 256)

/-- `crc32fast::hash`: CRC-32 (ISO-HDLC) of a byte buffer, with initial value
and final XOR `0xFFFFFFFF`. -/
def crc32_hash (data : List Nat) : Nat :=
  data.foldl crc32_byte_step 0xFFFFFFFF ^^^ 0xFFFFFFFF

/-- The per-entry CRC selection in `write_tns_file` (line 110):
`entry.crc32.unwrap_or_else(|| crc32fast::hash(&entry.data))`. -/
def entry_crc (e : TnsFileEntry) : Nat :=
  e.crc32.getD (crc32_hash e.data)

/-- The per-entry compressed size in `write_tns_file` (line 111):
`entry.data.len() as u32`. -/
def entry_compressed_size (e : TnsFileEntry) : Nat :=
  e.data.length % 2 ^ 32

/-- The per-entry uncompressed size in `write_tns_file` (line 114):
`entry.uncompressed_size.unwrap_or(compressed_size)`. -/
def entry_uncompressed_size (e : TnsFileEntry) : Nat :=
  e.uncompressed_size.getD (entry_compressed_size e)

/-- `write_ti_local_header` from tns_writer.rs: the vendor local header
written for the first entry. -/
def write_ti_local_header (filename : List Nat) (method crc32 : Nat)
    (compressed_size uncompressed_size : Nat) (version : List Nat) : List Nat :=
  TI_HEADER_MAGIC ++ version
    ++ le16 VERSION_NEEDED ++ le16 0 ++ le16 method ++ le32 0x00200000
    ++ le32 crc32 ++ le32 compressed_size ++ le32 uncompressed_size
    ++ le16 filename.length ++ le16 0 ++ filename

/-- `write_std_local_header` from tns_writer.rs: the standard local header
written for every entry after the first. -/
def write_std_local_header (filename : List Nat) (method crc32 : Nat)
    (compressed_size uncompressed_size : Nat) : List Nat :=
  STD_LOCAL_HEADER_SIG
    ++ le16 VERSION_NEEDED ++ le16 0 ++ le16 method ++ le32 0x00200000
    ++ le32 crc32 ++ le32 compressed_size ++ le32 uncompressed_size
    ++ le16 filename.length ++ le16 0 ++ filename

/-- `write_central_dir_entry` from tns_writer.rs. -/
def write_central_dir_entry (e : WrittenEntry) : List Nat :=
  CENTRAL_DIR_SIG ++ le16 VERSION_MADE_BY ++ le16 VERSION_NEEDED ++ le16 0
    ++ le16 e.method ++ le32 0x00200000 ++ le32 e.crc32
    ++ le32 e.compressed_size ++ le32 e.uncompressed_size
    ++ le16 e.filename.length ++ le16 0 ++ le16 0 ++ le16 0 ++ le16 0
    ++ le32 0 ++ le32 e.local_header_offset ++ e.filename

/-- `write_ti_end_of_central_dir` from tns_writer.rs: `TIPD` signature, two
zero disk-number fields, the entry count twice, central-directory size and
offset, and a zero comment length. -/
def write_ti_end_of_central_dir (num_entries central_dir_size central_dir_offset : Nat) :
    List Nat :=
  TI_END_SIG ++ le16 0 ++ le16 0 ++ le16 num_entries ++ le16 num_entries
    ++ le32 central_dir_size ++ le32 central_dir_offset ++ le16 0

/-- The local header written for the entry at index `i = 0` of
`write_tns_file`, with crc / sizes selected as in lines 110-114. -/
def ti_local_header_of (version : List Nat) (e : TnsFileEntry) : List Nat :=
  write_ti_local_header e.filename e.method (entry_crc e)
    (entry_compressed_size e) (entry_uncompressed_size e) version

/-- The local header written for an entry at index `i > 0` of
`write_tns_file`, with crc / sizes selected as in lines 110-114. -/
def std_local_header_of (e : TnsFileEntry) : List Nat :=
  write_std_local_header e.filename e.method (entry_crc e)
    (entry_compressed_size e) (entry_uncompressed_size e)

/-- The entry loop of `write_tns_file` (lines 104-136): emits each local
header (vendor layout at index 0, standard layout afterwards) followed by the
entry body, and builds the `WrittenEntry` ledger with the byte offset of each
local header (`buffer.position() as u32`). -/
def tns_body (version : List Nat) : Nat → Nat → List TnsFileEntry →
    List Nat × List WrittenEntry
  | _, _, [] => ([], [])
  | i, off, e :: rest =>
    let hdr := if i = 0 then ti_local_header_of version e else std_local_header_of e
    let block := hdr ++ e.data
    let r := tns_body version (i + 1) (off + block.length) rest
    (block ++ r.1,
      ⟨e.filename, e.method, entry_crc e, entry_compressed_size e,
        entry_uncompressed_size e, off % 2 ^ 32⟩ :: r.2)

/-- The bytes of all local headers and entry bodies of `write_tns_file`. -/
def tns_entries_bytes (version : List Nat) (entries : List TnsFileEntry) : List Nat :=
  (tns_body version 0 0 entries).1

/-- The `WrittenEntry` ledger of `write_tns_file`. -/
def tns_written_entries (version : List Nat) (entries : List TnsFileEntry) :
    List WrittenEntry :=
  (tns_body version 0 0 entries).2

/-- The central-directory bytes of `write_tns_file` (lines 142-144). -/
def tns_central_dir (version : List Nat) (entries : List TnsFileEntry) : List Nat :=
  ((tns_written_entries version entries).map write_central_dir_entry).flatten

/-- The version tag selected by the `has_bitmap` flag (line 102). -/
def ti_version (has_bitmap : Bool) : List Nat :=
  if has_bitmap then TI_VERSION_BITMAP else TI_VERSION_DEFAULT

/-- `write_tns_file` from tns_writer.rs, returning the byte stream written to
the output file.  `central_dir_offset` is `buffer.position() as u32` after the
entries, `central_dir_size` is the `u32` (wrapping) difference of positions,
and the entry count is `written_entries.len() as u16`. -/
def write_tns_file (entries : List TnsFileEntry) (has_bitmap : Bool) : List Nat :=
  let v := ti_version has_bitmap
  let body := tns_entries_bytes v entries
  let cd := tns_central_dir v entries
  let central_dir_offset := body.length % 2 ^ 32
  let central_dir_size :=
    ((body.length + cd.length) % 2 ^ 32 + 2 ^ 32 - central_dir_offset) % 2 ^ 32
  body ++ cd
    ++ write_ti_end_of_central_dir ((tns_written_entries v entries).length % 2 ^ 16)
        central_dir_size central_dir_offset

theorem le16_mod (n : Nat) : le16 (n % 2 ^ 16) = le16 n := by
  simp only [le16, List.cons.injEq, and_true]
  constructor <;> omega

theorem le32_mod (n : Nat) : le32 (n % 2 ^ 32) = le32 n := by
  simp only [le32, List.cons.injEq, and_true]
  refine ⟨?_, ?_, ?_, ?_⟩ <;> omega

theorem le32_wrap_sub (a b : Nat) :
    le32 (((a + b) % 2 ^ 32 + 2 ^ 32 - a % 2 ^ 32) % 2 ^ 32) = le32 b := by
  rw [show ((a + b) % 2 ^ 32 + 2 ^ 32 - a % 2 ^ 32) % 2 ^ 32 = b % 2 ^ 32 from by omega,
    le32_mod]

theorem drop_len_sub {α : Type} (A B : List α) (n : Nat) (h : B.length = n) :
    (A ++ B).drop ((A ++ B).length - n) = B := by
  have hidx : (A ++ B).length - n = A.length := by
    simp only [List.length_append, h]
    omega
  rw [hidx]
  exact List.drop_left A B

theorem ti_version_length (hb : Bool) : (ti_version hb).length = 4 := by
  cases hb <;> rfl

theorem write_ti_end_of_central_dir_length (a b c : Nat) :
    (write_ti_end_of_central_dir a b c).length = 22 := rfl

theorem tns_body_snd_length (v : List Nat) :
    ∀ (es : List TnsFileEntry) (i off : Nat), (tns_body v i off es).2.length = es.length := by
  intro es
  induction es with
  | nil => intro i off; rfl
  | cons e es ih => intro i off; simp [tns_body, ih]

/-- **C5 (amended)**: the local header written for entries at index `> 0` has
the identical field layout of the first entry's vendor header except that the
10-byte preamble — the 6-byte vendor magic plus the 4-byte version tag — is
replaced by the 4-byte standard local-header signature, so every field after
the signature re-aligns 6 bytes earlier than its position in the first
entry's header. -/
theorem std_local_header_layout (filename : List Nat) (method crc32 : Nat)
    (compressed_size uncompressed_size : Nat) (version : List Nat)
    (hv : version.length = 4) :
    write_std_local_header filename method crc32 compressed_size uncompressed_size
      = STD_LOCAL_HEADER_SIG
        ++ (write_ti_local_header filename method crc32 compressed_size
              uncompressed_size version).drop 10
    ∧ (write_ti_local_header filename method crc32 compressed_size
          uncompressed_size version).take 10
      = TI_HEADER_MAGIC ++ version := by
  have h10 : (TI_HEADER_MAGIC ++ version).length = 10 := by
    simp [TI_HEADER_MAGIC, hv]
  have hti : write_ti_local_header filename method crc32 compressed_size
      uncompressed_size version
      = (TI_HEADER_MAGIC ++ version)
        ++ (le16 VERSION_NEEDED ++ le16 0 ++ le16 method ++ le32 0x00200000
          ++ le32 crc32 ++ le32 compressed_size ++ le32 uncompressed_size
          ++ le16 filename.length ++ le16 0 ++ filename) := by
    simp [write_ti_local_header, List.append_assoc]
  constructor
  · rw [hti, drop_append_len _ _ _ h10]
    simp [write_std_local_header, List.append_assoc]
  · rw [hti, take_append_len _ _ _ h10]

theorem std_local_header_layout_witness :
    write_std_local_header [97] 13 1 2 3
      = STD_LOCAL_HEADER_SIG
        ++ (write_ti_local_header [97] 13 1 2 3 TI_VERSION_DEFAULT).drop 10 :=
  (std_local_header_layout [97] 13 1 2 3 TI_VERSION_DEFAULT (by decide)).1

/-- **C5 counterexample**: the claim as stated — every field after the
signature re-aligns 4 bytes earlier than in the first entry's header — fails:
the bytes following the 4-byte standard signature do not match the vendor
header's bytes from offset 8 on (the shift is 6 bytes, not 4, because the
vendor magic is 6 bytes long, not 4). -/
theorem std_local_header_not_4_bytes_earlier :
    (write_std_local_header [] 13 0 0 0).drop 4
      ≠ (write_ti_local_header [] 13 0 0 0 TI_VERSION_DEFAULT).drop 8 := by
  decide

/-- **C4**: for every entry list with at least two entries, the output of
`write_tns_file` starts with the 6-byte vendor magic `*TIMLP`, bytes 6-10 are
the requested version tag, the second entry's local header (located right
after the first header and body) begins with the standard signature
`PK\x03\x04`, and the end-of-directory record — the final 22 bytes of the
file, the record found scanning backward for the vendor signature — is
`TIPD`, disk numbers 0, both entry-count fields the (2-byte encoded) number
of entries, the central-directory size and offset as computed, and comment
length 0. -/
theorem write_tns_file_layout (e0 e1 : TnsFileEntry) (rest : List TnsFileEntry)
    (hb : Bool) :
    (write_tns_file (e0 :: e1 :: rest) hb).take 6 = TI_HEADER_MAGIC
    ∧ ((write_tns_file (e0 :: e1 :: rest) hb).drop 6).take 4 = ti_version hb
    ∧ ((write_tns_file (e0 :: e1 :: rest) hb).drop
          ((ti_local_header_of (ti_version hb) e0).length + e0.data.length)).take 4
        = STD_LOCAL_HEADER_SIG
    ∧ (write_tns_file (e0 :: e1 :: rest) hb).drop
          ((write_tns_file (e0 :: e1 :: rest) hb).length - 22)
        = TI_END_SIG ++ le16 0 ++ le16 0
          ++ le16 (e0 :: e1 :: rest : List TnsFileEntry).length
          ++ le16 (e0 :: e1 :: rest : List TnsFileEntry).length
          ++ le32 (tns_central_dir (ti_version hb) (e0 :: e1 :: rest)).length
          ++ le32 (tns_entries_bytes (ti_version hb) (e0 :: e1 :: rest)).length
          ++ le16 0 := by
  have hbody : tns_entries_bytes (ti_version hb) (e0 :: e1 :: rest)
      = (ti_local_header_of (ti_version hb) e0 ++ e0.data)
        ++ ((std_local_header_of e1 ++ e1.data)
          ++ (tns_body (ti_version hb) 2
              (0 + (ti_local_header_of (ti_version hb) e0 ++ e0.data).length
                + (std_local_header_of e1 ++ e1.data).length) rest).1) := by
    simp [tns_entries_bytes, tns_body]
  refine ⟨?_, ?_, ?_, ?_⟩
  · simp only [write_tns_file, hbody, ti_local_header_of, write_ti_local_header,
      List.append_assoc]
    exact take_append_len TI_HEADER_MAGIC _ 6 rfl
  · simp only [write_tns_file, hbody, ti_local_header_of, write_ti_local_header,
      List.append_assoc]
    rw [drop_append_len TI_HEADER_MAGIC _ 6 rfl]
    exact take_append_len _ _ 4 (ti_version_length hb)
  · simp only [write_tns_file, hbody, List.append_assoc]
    rw [← List.drop_drop, drop_append_len _ _ _ rfl,
      drop_append_len _ _ _ rfl]
    simp only [std_local_header_of, write_std_local_header, List.append_assoc]
    exact take_append_len STD_LOCAL_HEADER_SIG _ 4 rfl
  · have hwrit : (tns_written_entries (ti_version hb) (e0 :: e1 :: rest)).length
        = (e0 :: e1 :: rest : List TnsFileEntry).length :=
      tns_body_snd_length (ti_version hb) (e0 :: e1 :: rest) 0 0
    simp only [write_tns_file]
    rw [drop_len_sub _ _ 22 (write_ti_end_of_central_dir_length _ _ _)]
    simp only [write_ti_end_of_central_dir]
    rw [le32_wrap_sub, le32_mod, le16_mod, hwrit]

/-! ## `src/core/xml.rs` and `src/core/converter.rs` -/

/-- Byte constant `PY_HEADER` from src/core/xml.rs (Python XML wrapper prologue). -/
def PY_HEADER : List Nat :=
  [84, 73, 88, 67, 48, 49, 48, 48, 45, 49, 46, 48, 63, 62, 60, 112, 114, 111, 98, 32,
   120, 109, 108, 110, 115, 61, 34, 117, 114, 110, 58, 84, 73, 46, 80, 114, 111, 98, 108, 101,
   109, 34, 32, 118, 101, 114, 61, 34, 49, 46, 48, 34, 32, 112, 98, 110, 97, 109, 101, 61,
   34, 34, 62, 60, 115, 121, 109, 62, 14, 1, 60, 99, 97, 114, 100, 32, 99, 108, 97, 121,
   61, 34, 48, 34, 32, 104, 49, 61, 34, 49, 48, 48, 48, 48, 34, 32, 104, 50, 61, 34,
   49, 48, 48, 48, 48, 34, 32, 119, 49, 61, 34, 49, 48, 48, 48, 48, 34, 32, 119, 50,
   61, 34, 49, 48, 48, 48, 48, 34, 62, 60, 105, 115, 68, 117, 109, 109, 121, 67, 97, 114,
   100, 62, 48, 14, 3, 60, 102, 108, 97, 103, 62, 48, 14, 4, 60, 119, 100, 103, 116, 32,
   120, 109, 108, 110, 115, 58, 112, 121, 61, 34, 117, 114, 110, 58, 84, 73, 46, 80, 121, 116,
   104, 111, 110, 69, 100, 105, 116, 111, 114, 34, 32, 116, 121, 112, 101, 61, 34, 84, 73, 46,
   80, 121, 116, 104, 111, 110, 69, 100, 105, 116, 111, 114, 34, 32, 118, 101, 114, 61, 34, 49,
   46, 48, 34, 62, 60, 112, 121, 58, 100, 97, 116, 97, 62, 60, 112, 121, 58, 110, 97, 109,
   101, 62]

/-- Byte constant `PY_FOOTER` from src/core/xml.rs (Python XML wrapper epilogue). -/
def PY_FOOTER : List Nat :=
  [14, 7, 60, 112, 121, 58, 100, 105, 114, 102, 62, 45, 49, 48, 48, 48, 48, 48, 48, 48,
   14, 8, 14, 6, 60, 112, 121, 58, 109, 70, 108, 97, 103, 115, 62, 49, 48, 50, 52, 14,
   9, 60, 112, 121, 58, 118, 97, 108, 117, 101, 62, 49, 48, 14, 10, 14, 5, 14, 2, 14,
   0]

/-- Byte constant `TI_ENCRYPTED_HEADER` from src/core/xml.rs, prepended to the deflated and encrypted XML content. -/
def TI_ENCRYPTED_HEADER : List Nat :=
  [15, 206, 216, 210, 129, 6, 134, 91, 153, 221, 162, 61, 217, 233, 75, 212, 49, 187, 80, 182,
   77, 179, 41, 36, 112, 96, 73, 56, 28, 48, 248, 153, 0, 75, 146, 100, 228, 88, 230, 188]

/-- Byte constant `DEFAULT_DOCUMENT_XML` from src/core/xml.rs (pre-encrypted default Document.xml body). -/
def DEFAULT_DOCUMENT_XML : List Nat :=
  [15, 206, 216, 210, 129, 6, 134, 91, 74, 74, 197, 206, 169, 22, 242, 213, 29, 168, 47, 110,
   0, 34, 242, 240, 193, 166, 6, 119, 77, 126, 166, 192, 58, 240, 92, 116, 186, 170, 68, 96,
   205, 88, 230, 112, 215, 64, 246, 156, 23, 220, 240, 148, 119, 191, 202, 222, 247, 2, 9, 201,
   98, 177, 93, 239, 34, 250, 81, 55, 160, 129, 145, 72, 225, 131, 77, 173, 8, 49, 45, 208,
   211, 227, 45, 96, 171, 19, 194, 152, 43, 237, 57, 91, 9, 36, 57, 146, 47, 12, 122, 76,
   149, 116, 145, 59, 12, 244, 96, 204, 115, 39, 203, 7, 126, 127, 169, 23, 135, 226, 172, 162,
   59, 204, 160, 196, 227, 142, 137, 240, 192, 81, 159, 194, 190, 206, 40, 69, 195, 212, 17, 144,
   166, 236, 83, 160, 251, 91, 70, 107, 65, 173, 233, 83, 187, 151, 219, 177, 210, 104, 226, 246,
   54, 15, 38, 54, 117, 155, 233, 31, 72, 173, 233, 41, 103, 0, 88, 25, 195, 192, 18, 118,
   160, 74, 115, 243, 177, 211, 9, 24, 214, 6, 221, 151, 36, 83, 62, 34, 164, 251, 130, 80,
   123, 124, 18, 136, 78, 125, 65, 128, 254, 114, 146, 41, 135, 232, 92, 86, 114, 255, 41, 22,
   140, 66, 91, 139, 155, 167, 210, 8, 109, 211, 152, 255, 145, 169, 158, 243, 147, 168, 46, 28,
   178, 169, 107, 106, 223, 246, 206, 45, 21, 23, 206, 110, 192, 79, 154, 156, 14, 223, 25, 141,
   45, 250, 105, 159, 17, 210, 32, 18, 224, 121, 20, 4, 78, 98, 143, 10, 42, 24, 114, 90,
   139, 128, 179, 60, 155, 213, 103, 89, 75, 81, 77, 224, 195, 56, 40, 195, 220, 205, 57, 34,
   18, 140, 64, 85]

/-- The error type `XMLError` from xml.rs. -/
inductive XMLError where
  | InvalidContent (s : String)
  | GenerationFailed (s : String)
  | EncodingError (s : String)
deriving DecidableEq

/-- The error type `CompressionError` from compression.rs (the wrapped
`std::io::Error` payloads are message strings). -/
inductive CompressionError where
  | CompressionFailed (s : String)
  | DecompressionFailed (s : String)
  | IoError (s : String)
deriving DecidableEq

/-- The error type `ConversionError` from converter.rs (payloads of the
wrapped foreign errors are kept; `Io` carries the message string). -/
inductive ConversionError where
  | Xml (e : XMLError)
  | Compression (e : CompressionError)
  | Des (e : DESError)
  | Zip (s : String)
  | Io (s : String)
  | InvalidInput (s : String)
deriving DecidableEq

/-- `wrap_python_script` from xml.rs: fails when the companion filename is
longer than 240 bytes (`python_filename.len() > 240`; `str::len` is the byte
length), otherwise returns `PY_HEADER ++ filename ++ PY_FOOTER`. -/
def wrap_python_script (python_filename : List Nat) : Except XMLError (List Nat) :=
  if python_filename.length > 240 then
    Except.error (XMLError.InvalidContent
      "Python script filenames limited to 240 characters")
  else
    Except.ok (PY_HEADER ++ python_filename ++ PY_FOOTER)

/-- The bytes of the filename string `"Document.xml"`. -/
def DOCUMENT_XML_FILENAME : List Nat :=
  [68, 111, 99, 117, 109, 101, 110, 116, 46, 120, 109, 108]

/-- The bytes of the filename string `"Problem1.xml"`. -/
def PROBLEM1_XML_FILENAME : List Nat :=
  [80, 114, 111, 98, 108, 101, 109, 49, 46, 120, 109, 108]

/-- The entry list built by `create_tns_archive_with_python` in converter.rs:
two TI-encrypted entries (`Document.xml`, `Problem1.xml`) and one deflated
entry carrying the deflate-compressed companion script, its original length
(`python_content.len() as u32`) and `crc32fast::hash(python_content)`.
`compress` is the external raw-deflate primitive `compression::compress_xml`. -/
def python_entries (compress : List Nat → List Nat)
    (document_xml problem_xml python_filename python_content : List Nat) :
    List TnsFileEntry :=
  [new_ti_encrypted DOCUMENT_XML_FILENAME document_xml,
   new_ti_encrypted PROBLEM1_XML_FILENAME problem_xml,
   new_deflated python_filename (compress python_content)
     (python_content.length % 2 ^ 32) (crc32_hash python_content)]

/-- `create_tns_archive_with_python` from converter.rs, returning the bytes
written to the output file. -/
def create_tns_archive_with_python (compress : List Nat → List Nat)
    (document_xml problem_xml python_filename python_content : List Nat) : List Nat :=
  write_tns_file
    (python_entries compress document_xml problem_xml python_filename python_content)
    false

/-- `convert_python_to_tns` from converter.rs (steps 1-7), with the external
deflate and 3DES primitives as parameters: wrap the companion filename in the
Python XML template, compress, pad to 8 bytes, encrypt, prepend
`TI_ENCRYPTED_HEADER`, and write the three-entry archive.  A step error
aborts the conversion and nothing is written (the only file write happens
inside `write_tns_file`, after every step has succeeded). -/
def convert_python_to_tns (compress : List Nat → List Nat)
    (tdes : List Nat → List Nat → List Nat)
    (python_script python_filename : List Nat) : Except ConversionError (List Nat) :=
  match wrap_python_script python_filename with
  | Except.error e => Except.error (ConversionError.Xml e)
  | Except.ok python_xml =>
    let compressed := compress python_xml
    let padded := pad_to_8_bytes compressed
    match encrypt_document tdes padded with
    | (Except.error e, _) => Except.error (ConversionError.Des e)
    | (Except.ok _, encrypted) =>
      Except.ok (create_tns_archive_with_python compress DEFAULT_DOCUMENT_XML
        (TI_ENCRYPTED_HEADER ++ encrypted) python_filename python_script)

/-- **C6**: the archive writer records, for every TI-encrypted entry, a
CRC-32 computed over the stored body bytes and an uncompressed-size field
equal to the stored body length (as a 4-byte field, i.e. mod `2^32`); for
deflated entries it records the caller-supplied CRC-32 and original size, and
the orchestrator (`create_tns_archive_with_python`) supplies
`crc32fast::hash` of the raw companion script and its pre-compression
length. -/
theorem tns_checksum_semantics (compress : List Nat → List Nat)
    (document_xml problem_xml python_filename python_content : List Nat) :
    (∀ filename data : List Nat,
      entry_crc (new_ti_encrypted filename data) = crc32_hash data
      ∧ entry_uncompressed_size (new_ti_encrypted filename data)
          = data.length % 2 ^ 32)
    ∧ (∀ (filename cdata : List Nat) (osize crc : Nat),
      entry_crc (new_deflated filename cdata osize crc) = crc
      ∧ entry_uncompressed_size (new_deflated filename cdata osize crc) = osize)
    ∧ (tns_written_entries (ti_version false)
          (python_entries compress document_xml problem_xml python_filename
            python_content)).map (fun w => (w.crc32, w.uncompressed_size))
        = [(crc32_hash document_xml, document_xml.length % 2 ^ 32),
           (crc32_hash problem_xml, problem_xml.length % 2 ^ 32),
           (crc32_hash python_content, python_content.length % 2 ^ 32)]
    ∧ create_tns_archive_with_python compress document_xml problem_xml
          python_filename python_content
        = write_tns_file
            (python_entries compress document_xml problem_xml python_filename
              python_content) false := by
  refine ⟨fun filename data => ⟨rfl, rfl⟩, fun filename cdata osize crc => ⟨rfl, rfl⟩,
    ?_, rfl⟩
  simp [tns_written_entries, tns_body, python_entries, new_ti_encrypted, new_deflated,
    entry_crc, entry_uncompressed_size, entry_compressed_size]

/-! ## `src/core/compression.rs`

`compress_xml` / `decompress_xml` wrap the external `flate2` raw-deflate
primitive (`DeflateEncoder` / `DeflateDecoder`), which is not part of this
repository.  The spec treats raw deflate as an external primitive whose only
absolute contract is that output decompresses byte-identically to the input,
with the exact compressed-byte layout deliberately unspecified.  The model
below therefore implements a genuine header-less deflate stream restricted to
stored blocks (`BTYPE = 00`), which is one valid output a raw-deflate encoder
may produce, and a decoder for such streams. -/

/-- Maximum payload of one deflate stored block (16-bit `LEN` field). -/
def STORED_MAX : Nat := 65535

/-- Modelled from the spec: one raw-deflate stored block.  The first byte
holds `BFINAL` in bit 0 and `BTYPE = 00` in bits 1-2 (padding to the byte
boundary, so the byte is `bfinal`), followed by `LEN` little-endian, `NLEN`
(the ones-complement of `LEN`) and the raw payload bytes. -/
def mk_stored_block (bfinal : Nat) (payload : List Nat) : List Nat :=
  bfinal :: payload.length % 256 :: payload.length / 256 % 256
    :: (255 - payload.length % 256) :: (255 - payload.length / 256 % 256) :: payload

/-- Modelled from the spec: the body of `compress_xml` — the external flate2
raw-deflate encoder is missing from src/, so it is modelled as a header-less
deflate stream of stored blocks (a final block for up to `STORED_MAX` bytes,
non-final blocks before it otherwise). -/
def deflate_stored (data : List Nat) : List Nat :=
  if data.length ≤ STORED_MAX then mk_stored_block 1 data
  else mk_stored_block 0 (data.take STORED_MAX)
    ++ deflate_stored (data.drop STORED_MAX)
termination_by data.length
decreasing_by
  simp only [List.length_drop, STORED_MAX] at *
  omega

/-- Modelled from the spec: the body of `decompress_xml` — the external
flate2 raw-deflate decoder is missing from src/, so it is modelled as a
decoder of header-less deflate streams of stored blocks, consuming blocks up
to and including the final one and failing on malformed input. -/
def inflate_stored (input : List Nat) : Except CompressionError (List Nat) :=
  match input with
  | b :: l1 :: l2 :: n1 :: n2 :: rest =>
    if b / 2 % 4 ≠ 0 then
      Except.error (CompressionError.DecompressionFailed "unsupported block type")
    else if n1 ≠ 255 - l1 ∨ n2 ≠ 255 - l2 then
      Except.error (CompressionError.DecompressionFailed "corrupt stored block length")
    else if rest.length < l1 + 256 * l2 then
      Except.error (CompressionError.DecompressionFailed "truncated stored block")
    else if b % 2 = 1 then
      Except.ok (rest.take (l1 + 256 * l2))
    else
      Except.map (fun tail => rest.take (l1 + 256 * l2) ++ tail)
        (inflate_stored (rest.drop (l1 + 256 * l2)))
  | _ => Except.error (CompressionError.DecompressionFailed "truncated stream")
termination_by input.length
decreasing_by
  simp only [List.length_cons, List.length_drop]
  omega

/-- `compress_xml` from compression.rs: raw deflate of the buffer (modelled
by `deflate_stored`); in-memory compression does not fail. -/
def compress_xml (xml_data : List Nat) : Except CompressionError (List Nat) :=
  Except.ok (deflate_stored xml_data)

/-- `decompress_xml` from compression.rs: raw inflate of the buffer
(modelled by `inflate_stored`). -/
def decompress_xml (compressed_data : List Nat) : Except CompressionError (List Nat) :=
  inflate_stored compressed_data

theorem inflate_stored_cons (b l1 l2 n1 n2 : Nat) (rest : List Nat) :
    inflate_stored (b :: l1 :: l2 :: n1 :: n2 :: rest)
      = if b / 2 % 4 ≠ 0 then
          Except.error (CompressionError.DecompressionFailed "unsupported block type")
        else if n1 ≠ 255 - l1 ∨ n2 ≠ 255 - l2 then
          Except.error (CompressionError.DecompressionFailed "corrupt stored block length")
        else if rest.length < l1 + 256 * l2 then
          Except.error (CompressionError.DecompressionFailed "truncated stored block")
        else if b % 2 = 1 then
          Except.ok (rest.take (l1 + 256 * l2))
        else
          Except.map (fun tail => rest.take (l1 + 256 * l2) ++ tail)
            (inflate_stored (rest.drop (l1 + 256 * l2))) := by
  rw [inflate_stored]

theorem inflate_mk_final (payload : List Nat) (hlen : payload.length ≤ 65535) :
    inflate_stored (mk_stored_block 1 payload) = Except.ok payload := by
  simp only [mk_stored_block]
  rw [inflate_stored_cons]
  rw [if_neg (by norm_num)]
  rw [if_neg (by simp)]
  rw [if_neg (by omega)]
  rw [if_pos rfl]
  rw [show payload.length % 256 + 256 * (payload.length / 256 % 256) = payload.length
    from by omega]
  rw [List.take_length]

theorem inflate_deflate_stored :
    ∀ (n : Nat) (data : List Nat), data.length ≤ n →
      inflate_stored (deflate_stored data) = Except.ok data := by
  intro n
  induction n with
  | zero =>
    intro data h
    have hd : data = [] := List.eq_nil_of_length_eq_zero (Nat.le_zero.mp h)
    subst hd
    rw [deflate_stored, if_pos (by simp [STORED_MAX])]
    exact inflate_mk_final [] (by simp)
  | succ n ih =>
    intro data h
    rw [deflate_stored]
    by_cases hle : data.length ≤ STORED_MAX
    · rw [if_pos hle]
      exact inflate_mk_final data hle
    · rw [if_neg hle]
      simp only [STORED_MAX] at hle
      have htl : (data.take STORED_MAX).length = 65535 := by
        simp only [List.length_take, STORED_MAX]
        omega
      simp only [mk_stored_block, htl, List.cons_append]
      rw [inflate_stored_cons]
      rw [if_neg (by norm_num)]
      rw [if_neg (by norm_num)]
      have hrl : ¬((data.take STORED_MAX ++ deflate_stored (data.drop STORED_MAX)).length
          < 65535 % 256 + 256 * (65535 / 256 % 256)) := by
        simp only [List.length_append, htl]
        omega
      rw [if_neg hrl]
      rw [if_neg (by norm_num)]
      have hsplit : 65535 % 256 + 256 * (65535 / 256 % 256) = 65535 := by norm_num
      rw [hsplit]
      rw [take_append_len _ _ _ htl, drop_append_len _ _ _ htl]
      rw [ih (data.drop STORED_MAX) (by simp only [List.length_drop, STORED_MAX]; omega)]
      simp only [Except.map]
      rw [List.take_append_drop]

/-- **C8**: `decompress_xml` applied to the result of `compress_xml` returns
exactly the original bytes, for every byte buffer; in particular empty input
compresses successfully to an output that decompresses back to the empty
buffer.  (Raw deflate itself is external to the repository; it is modelled
from the spec as a stored-block deflate codec.) -/
theorem compress_decompress_roundtrip (data : List Nat) :
    (compress_xml data).bind decompress_xml = Except.ok data
    ∧ (∃ c, compress_xml [] = Except.ok c ∧ decompress_xml c = Except.ok []) := by
  refine ⟨?_, ⟨deflate_stored [], rfl, inflate_deflate_stored 0 [] (by simp)⟩⟩
  have h := inflate_deflate_stored data.length data le_rfl
  simp only [compress_xml, decompress_xml, Except.bind, h]

/-- **C9 (amended)**: converting a Python script whose companion filename is
longer than 240 bytes fails at the XML-wrapping step — before compression,
encryption, or any archive construction, so no output file is written — with
the error kind `Xml (InvalidContent ...)` (converter.rs wraps the
`XMLError` from `wrap_python_script` via `ConversionError::Xml`, not via
`ConversionError::InvalidInput`). -/
theorem convert_python_filename_too_long (compress : List Nat → List Nat)
    (tdes : List Nat → List Nat → List Nat)
    (python_script python_filename : List Nat)
    (h : python_filename.length > 240) :
    convert_python_to_tns compress tdes python_script python_filename
      = Except.error (ConversionError.Xml (XMLError.InvalidContent
          "Python script filenames limited to 240 characters")) := by
  simp [convert_python_to_tns, wrap_python_script, h]

theorem convert_python_filename_too_long_witness :
    convert_python_to_tns (fun b => b) (fun _ b => b) [] (List.replicate 241 97)
      = Except.error (ConversionError.Xml (XMLError.InvalidContent
          "Python script filenames limited to 240 characters")) :=
  convert_python_filename_too_long (fun b => b) (fun _ b => b) [] (List.replicate 241 97)
    (by simp)

/-- Recognizer for the `ConversionError.InvalidInput` error kind. -/
def is_invalid_input_error (r : Except ConversionError (List Nat)) : Bool :=
  match r with
  | Except.error (ConversionError.InvalidInput _) => true
  | _ => false

/-- **C9 counterexample**: converting with a concrete 241-byte companion
filename fails, but NOT with the `InvalidInput` error kind claimed by the
spec: the error is `Xml (InvalidContent ...)`. -/
theorem convert_python_long_filename_not_invalid_input :
    (convert_python_to_tns (fun b => b) (fun _ b => b) [] (List.replicate 241 97)).isOk
        = false
    ∧ is_invalid_input_error
        (convert_python_to_tns (fun b => b) (fun _ b => b) [] (List.replicate 241 97))
        = false
    ∧ convert_python_to_tns (fun b => b) (fun _ b => b) [] (List.replicate 241 97)
      = Except.error (ConversionError.Xml (XMLError.InvalidContent
          "Python script filenames limited to 240 characters")) := by
  refine ⟨rfl, rfl, rfl⟩

end Luna
